import Mathlib

/-!
# Field configuration (`src/clib/lib/enkf/field_config.cpp`)

A shallow embedding of the field configuration object of the `enkf` library:
the configuration record, its construction, the three transform setters, the
composite update, the validity check, the truncation setter and the getters,
followed by the properties proved about them.

Conventions of the embedding

* a `char *` is an `Option String` (`none` is the `NULL` pointer, `some ""` is a
  present, empty string);
* a `field_func_type *` is an `Option field_func_type` (`none` is `NULL`);
* `int` fields are `Int`, `double` fields are `Float`; the code only stores and
  returns them, no arithmetic is performed on either;
* a call of `util_exit` or `util_abort` ends the process: the functions that can
  reach one return `Except fatal _`, and the `fatal` value records what was
  reported and the configuration as it was when the process ended.
-/

namespace FieldConfig

/-! ## Types declared in headers that are not part of the sources -/

/-- Modelled from the spec: the enumeration `field_file_format_type` is declared
in `field_config.hpp`, which is missing. The constants are the ones the source
file names; a C enumeration gives them pairwise distinct values. -/
inductive field_file_format_type where
  | UNDEFINED_FORMAT
  | RMS_ROFF_FILE
  | ECL_KW_FILE_ALL_CELLS
  | ECL_GRDECL_FILE
  | FILE_FORMAT_NULL
  deriving DecidableEq, Repr

/-- Modelled from the spec: the enumeration `field_type_enum` (the declared kind)
is declared in `field_config.hpp`, which is missing: Unknown, EclipseParameter,
EclipseRestart, General. -/
inductive field_type_enum where
  | ECLIPSE_RESTART
  | ECLIPSE_PARAMETER
  | GENERAL
  | UNKNOWN_FIELD_TYPE
  deriving DecidableEq, Repr

open field_file_format_type field_type_enum

/-- Modelled from the spec: `TRUNCATE_NONE` of `enkf_types.hpp` (missing), the
truncation mode with no bit set. -/
def TRUNCATE_NONE : Int := 0

/-- Identity of a transformation function; the configuration only stores and
compares it, it never calls it. -/
abbrev field_func_type := Nat

/-- Modelled from the spec: the transform registry `field_trans_table_type` of
`field_trans.hpp` (missing), given by its two queries. `has_key` takes a possibly
`NULL` name; `lookup` returns the function pointer registered for a name. No
property of either is assumed. -/
structure field_trans_table_type where
  has_key : Option String → Bool
  lookup : String → Option field_func_type

/-- Query `field_trans_table_has_key(table, key)`. -/
def field_trans_table_has_key (table : field_trans_table_type) (key : Option String) : Bool :=
  table.has_key key

/-- Query `field_trans_table_lookup(table, key)`. -/
def field_trans_table_lookup (table : field_trans_table_type) (key : String) :
    Option field_func_type :=
  table.lookup key

/-- A registry populated from a list of (name, function) pairs, names compared
case-sensitively; a `NULL` name is not a key. Used for concrete instances. -/
def field_trans_table_of (entries : List (String × field_func_type)) : field_trans_table_type where
  has_key := fun key =>
    match key with
    | none => false
    | some k => (entries.lookup k).isSome
  lookup := fun k => entries.lookup k

/-! ## String utilities of the `util` library -/

/-- Library function `util_alloc_string_copy`: a copy of the string, `NULL` for `NULL`. -/
def util_alloc_string_copy (src : Option String) : Option String := src

/-- Library function `util_realloc_string_copy`: the old string is released and
a copy of `src` returned, `NULL` for `NULL`. -/
def util_realloc_string_copy (_old_string : Option String) (src : Option String) :
    Option String := src

/-- Library function `util_strupr`: `toupper` applied to every character. -/
def util_strupr (s : String) : String := String.mk (s.toList.map Char.toUpper)

/-- Modelled from the spec: the extension that
`util_alloc_file_components(filename, NULL, NULL, &extension)` extracts (the
function belongs to the `util` library and is missing). The extension is the
text after the last `.` of the last path component; it is `NULL` when that
component has no `.`. -/
def util_alloc_file_components (filename : String) : Option String :=
  let base := (filename.toList.reverse.takeWhile (fun c => c != '/')).reverse
  if base.contains '.' then
    some (String.mk (base.reverse.takeWhile (fun c => c != '.')).reverse)
  else
    none

/-! ## The configuration record -/

/-- Record `field_config_struct`, field by field. -/
structure field_config_struct where
  ecl_kw_name : Option String
  data_size : Int
  nx : Int
  ny : Int
  nz : Int
  keep_inactive_cells : Bool
  grid : Option String
  truncation : Int
  min_value : Float
  max_value : Float
  export_format : field_file_format_type
  import_format : field_file_format_type
  output_field_name : Option String
  type : field_type_enum
  trans_table : field_trans_table_type
  output_transform : Option field_func_type
  init_transform : Option field_func_type
  input_transform : Option field_func_type
  output_transform_name : Option String
  init_transform_name : Option String
  input_transform_name : Option String

/-- The ways the process can end instead of returning. -/
inductive fatal where
  /-- the transform setters: the unrecognised name is printed, then `util_exit` -/
  | util_exit (name : String) (config : field_config_struct)
  /-- the validity check: `util_abort` on an internal inconsistency -/
  | util_abort

/-! ## Export format -/

/-- Function `field_config_default_export_format`. -/
def field_config_default_export_format (filename : Option String) : field_file_format_type :=
  match filename with
  | none => FILE_FORMAT_NULL
  | some filename =>
    match util_alloc_file_components filename with
    | none => ECL_KW_FILE_ALL_CELLS
    | some extension =>
      let extension := util_strupr extension
      if extension = "GRDECL" then ECL_GRDECL_FILE
      else if extension = "ROFF" then RMS_ROFF_FILE
      else ECL_KW_FILE_ALL_CELLS

/-- Getter `field_config_get_export_format`. -/
def field_config_get_export_format (field_config : field_config_struct) :
    field_file_format_type :=
  field_config.export_format

/-- Getter `field_config_get_output_file_name`. -/
def field_config_get_output_file_name (field_config : field_config_struct) : Option String :=
  field_config.output_field_name

/-- Getter `field_config_get_init_transform_name`. -/
def field_config_get_init_transform_name (field_config : field_config_struct) :
    Option String :=
  field_config.init_transform_name

/-- Getter `field_config_get_input_transform_name`. -/
def field_config_get_input_transform_name (field_config : field_config_struct) :
    Option String :=
  field_config.input_transform_name

/-- Getter `field_config_get_output_transform_name`. -/
def field_config_get_output_transform_name (field_config : field_config_struct) :
    Option String :=
  field_config.output_transform_name

/-- Getter `field_config_get_grid_name`. -/
def field_config_get_grid_name (config : field_config_struct) : Option String :=
  config.grid

/-! ## Construction -/

/-- Function `field_config_alloc_empty`. The record comes from `util_malloc`,
which does not clear it: `mem` is the content of the fresh block, and the fields
the function does not assign keep what `mem` holds. `table` is the registry
returned by `field_trans_table_alloc()`. -/
def field_config_alloc_empty (mem : field_config_struct) (table : field_trans_table_type)
    (ecl_kw_name path_to_grid : Option String) (keep_inactive_cells : Bool) :
    field_config_struct :=
  { mem with
    keep_inactive_cells := keep_inactive_cells
    ecl_kw_name := util_alloc_string_copy ecl_kw_name
    output_field_name := none
    grid := util_alloc_string_copy path_to_grid
    type := UNKNOWN_FIELD_TYPE
    output_transform := none
    input_transform := none
    init_transform := none
    output_transform_name := none
    input_transform_name := none
    init_transform_name := none
    truncation := TRUNCATE_NONE
    trans_table := table }

/-! ## Transform setters -/

/-- Function `field_config_set_init_transform`. The first part settles the local
`init_transform_name` or ends the process; the second part stores the name and
the function. -/
def field_config_set_init_transform (config : field_config_struct)
    (__init_transform_name : Option String) : Except fatal field_config_struct :=
  let resolved : Except fatal (Option String) :=
    if field_trans_table_has_key config.trans_table __init_transform_name then
      .ok __init_transform_name
    else
      match __init_transform_name with
      | some name => .error (fatal.util_exit name config)
      | none => .ok none
  match resolved with
  | .error e => .error e
  | .ok init_transform_name =>
    let config := { config with
      init_transform_name :=
        util_realloc_string_copy config.init_transform_name init_transform_name }
    match init_transform_name with
    | some name =>
      .ok { config with init_transform := field_trans_table_lookup config.trans_table name }
    | none => .ok { config with init_transform := none }

/-- Function `field_config_set_output_transform`. The first part settles the local
`output_transform_name` or ends the process; the second part stores the name and
the function. -/
def field_config_set_output_transform (config : field_config_struct)
    (__output_transform_name : Option String) : Except fatal field_config_struct :=
  let resolved : Except fatal (Option String) :=
    if field_trans_table_has_key config.trans_table __output_transform_name then
      .ok __output_transform_name
    else
      match __output_transform_name with
      | some name => .error (fatal.util_exit name config)
      | none => .ok none
  match resolved with
  | .error e => .error e
  | .ok output_transform_name =>
    let config := { config with
      output_transform_name :=
        util_realloc_string_copy config.output_transform_name output_transform_name }
    match output_transform_name with
    | some name =>
      .ok { config with output_transform := field_trans_table_lookup config.trans_table name }
    | none => .ok { config with output_transform := none }

/-- Function `field_config_set_input_transform`. The first part settles the local
`input_transform_name` or ends the process; the second part stores the name and
the function. -/
def field_config_set_input_transform (config : field_config_struct)
    (__input_transform_name : Option String) : Except fatal field_config_struct :=
  let resolved : Except fatal (Option String) :=
    if field_trans_table_has_key config.trans_table __input_transform_name then
      .ok __input_transform_name
    else
      match __input_transform_name with
      | some name => .error (fatal.util_exit name config)
      | none => .ok none
  match resolved with
  | .error e => .error e
  | .ok input_transform_name =>
    let config := { config with
      input_transform_name :=
        util_realloc_string_copy config.input_transform_name input_transform_name }
    match input_transform_name with
    | some name =>
      .ok { config with input_transform := field_trans_table_lookup config.trans_table name }
    | none => .ok { config with input_transform := none }

/-! ## Truncation, dimensions, getters -/

/-- Function `field_config_set_truncation`. -/
def field_config_set_truncation (config : field_config_struct) (truncation : Int)
    (min_value max_value : Float) : field_config_struct :=
  { config with truncation := truncation, min_value := min_value, max_value := max_value }

/-- Getter `field_config_get_truncation_mode`. -/
def field_config_get_truncation_mode (config : field_config_struct) : Int :=
  config.truncation

/-- Getter `field_config_get_truncation_min`. -/
def field_config_get_truncation_min (config : field_config_struct) : Float :=
  config.min_value

/-- Getter `field_config_get_truncation_max`. -/
def field_config_get_truncation_max (config : field_config_struct) : Float :=
  config.max_value

/-- Getter `field_config_get_type`. -/
def field_config_get_type (config : field_config_struct) : field_type_enum :=
  config.type

/-- Getter `field_config_get_output_transform`. -/
def field_config_get_output_transform (config : field_config_struct) :
    Option field_func_type :=
  config.output_transform

/-- Getter `field_config_get_init_transform`. -/
def field_config_get_init_transform (config : field_config_struct) : Option field_func_type :=
  config.init_transform

/-- Getter `field_config_get_input_transform`. -/
def field_config_get_input_transform (config : field_config_struct) :
    Option field_func_type :=
  config.input_transform

/-- Getter `field_config_get_key`. -/
def field_config_get_key (field_config : field_config_struct) : Option String :=
  field_config.ecl_kw_name

/-- Getter `field_config_keep_inactive_cells`. -/
def field_config_keep_inactive_cells (config : field_config_struct) : Bool :=
  config.keep_inactive_cells

/-- Function `field_config_set_dims`. -/
def field_config_set_dims (config : field_config_struct) (x y z : Int) : field_config_struct :=
  { config with nx := x, ny := y, nz := z }

/-! ## Composite update and validity -/

/-- Function `field_config_update_field`. -/
def field_config_update_field (config : field_config_struct) (truncation : Int)
    (min_value max_value : Float) (export_format : field_file_format_type)
    (init_transform input_transform output_transform output_field_name : Option String) :
    Except fatal field_config_struct :=
  let config := field_config_set_truncation config truncation min_value max_value
  let config := { config with export_format := export_format }
  let config := { config with type := ECLIPSE_PARAMETER }
  match field_config_set_input_transform config input_transform with
  | .error e => .error e
  | .ok config =>
    match field_config_set_init_transform config init_transform with
    | .error e => .error e
    | .ok config =>
      match field_config_set_output_transform config output_transform with
      | .error e => .error e
      | .ok config =>
        .ok { config with output_field_name := util_alloc_string_copy output_field_name }

/-- Function `field_config_is_valid`. -/
def field_config_is_valid (field_config : field_config_struct) : Except fatal Bool :=
  match field_config.type with
  | ECLIPSE_PARAMETER => .ok (decide (field_config.export_format ≠ UNDEFINED_FORMAT))
  | ECLIPSE_RESTART => .ok true
  | GENERAL => .ok (decide (field_config.export_format ≠ UNDEFINED_FORMAT))
  | _ => .error fatal.util_abort

/-! ## The operations under the names the specification uses -/

/-- The three lifecycle points a transform can be bound to. -/
inductive Stage where
  | Init
  | Input
  | Output
  deriving DecidableEq, Repr

/-- Operation `set_transform(stage, name)`: the setter of that stage. -/
def set_transform (stage : Stage) (config : field_config_struct) (name : Option String) :
    Except fatal field_config_struct :=
  match stage with
  | .Init => field_config_set_init_transform config name
  | .Input => field_config_set_input_transform config name
  | .Output => field_config_set_output_transform config name

/-- The stored name of a stage, read through its getter. -/
def stage_name (stage : Stage) (config : field_config_struct) : Option String :=
  match stage with
  | .Init => field_config_get_init_transform_name config
  | .Input => field_config_get_input_transform_name config
  | .Output => field_config_get_output_transform_name config

/-- The resolved handle of a stage, read through its getter. -/
def stage_handle (stage : Stage) (config : field_config_struct) : Option field_func_type :=
  match stage with
  | .Init => field_config_get_init_transform config
  | .Input => field_config_get_input_transform config
  | .Output => field_config_get_output_transform config

/-- The configuration with the binding of one stage replaced by the given name
and handle, every other field kept. -/
def with_binding (stage : Stage) (config : field_config_struct) (name : Option String)
    (handle : Option field_func_type) : field_config_struct :=
  match stage with
  | .Init => { config with init_transform_name := name, init_transform := handle }
  | .Input => { config with input_transform_name := name, input_transform := handle }
  | .Output => { config with output_transform_name := name, output_transform := handle }

/-- A possibly absent name resolves in a registry when it is absent or the
registry has it: the names with which a setter returns. -/
def resolves (table : field_trans_table_type) (name : Option String) : Bool :=
  match name with
  | none => true
  | some n => field_trans_table_has_key table (some n)

/-- The handle a binding gets for a possibly absent name: the registry's lookup
for a present name, absent for an absent one. -/
def resolved_handle (table : field_trans_table_type) (name : Option String) :
    Option field_func_type :=
  match name with
  | none => none
  | some n => field_trans_table_lookup table n

/-! ## Reference definition of the export format inference -/

/-- Two strings are equal when compared case-insensitively: they have the same
characters once every letter is lowered. -/
def eq_ignoring_case (a b : String) : Bool :=
  decide (a.toList.map Char.toLower = b.toList.map Char.toLower)

/-- Operation `infer_export_format` as the specification words it: no filename
gives Null; an extension that is "GRDECL" up to case gives the GRDECL format; one
that is "ROFF" up to case gives the ROFF format; every other filename, also one
without an extension, gives the all-cells format. -/
def infer_export_format (filename : Option String) : field_file_format_type :=
  match filename with
  | none => FILE_FORMAT_NULL
  | some filename =>
    match util_alloc_file_components filename with
    | some extension =>
      if eq_ignoring_case extension "GRDECL" then ECL_GRDECL_FILE
      else if eq_ignoring_case extension "ROFF" then RMS_ROFF_FILE
      else ECL_KW_FILE_ALL_CELLS
    | none => ECL_KW_FILE_ALL_CELLS

/-! ## Data size -/

/-- Modelled from the spec: the data-size getter `field_config_get_data_size`,
which the macro `GET_DATA_SIZE(field)` of `enkf_macros.hpp` (missing) generates.
The specification gives the data size as derived from the geometry: it is
nx·ny·nz when cells are not filtered, and the active-cell count when they are;
that count belongs to the grid and is the parameter `active_size`. -/
def field_config_get_data_size (config : field_config_struct) (active_size : Int) : Int :=
  if config.keep_inactive_cells then config.nx * config.ny * config.nz else active_size

/-! ## Sequences of calls -/

/-- The calls that change a configuration after its construction. -/
inductive Call where
  | set_dims (x y z : Int)
  | set_truncation (truncation : Int) (min_value max_value : Float)
  | set_transform (stage : Stage) (name : Option String)
  | update (truncation : Int) (min_value max_value : Float)
      (export_format : field_file_format_type)
      (init_transform input_transform output_transform output_field_name : Option String)

/-- One call on a configuration. -/
def call (config : field_config_struct) (c : Call) : Except fatal field_config_struct :=
  match c with
  | .set_dims x y z => .ok (field_config_set_dims config x y z)
  | .set_truncation truncation min_value max_value =>
    .ok (field_config_set_truncation config truncation min_value max_value)
  | .set_transform stage name => set_transform stage config name
  | .update truncation min_value max_value export_format init_transform input_transform
      output_transform output_field_name =>
    field_config_update_field config truncation min_value max_value export_format
      init_transform input_transform output_transform output_field_name

/-- A sequence of calls, one after the other; the first fatal outcome ends it. -/
def calls (config : field_config_struct) (cs : List Call) : Except fatal field_config_struct :=
  match cs with
  | [] => .ok config
  | c :: rest =>
    match call config c with
    | .error e => .error e
    | .ok config => calls config rest

/-- The registry gives a function for every name it has. -/
def registry_total (table : field_trans_table_type) : Prop :=
  ∀ n : String, field_trans_table_has_key table (some n) = true →
    (field_trans_table_lookup table n).isSome = true

/-- The binding of a stage is consistent: its handle is present exactly when its
name is, and a present name is a key of the registry whose lookup is the
handle. -/
def binding_consistent (stage : Stage) (config : field_config_struct) : Prop :=
  ((stage_handle stage config).isSome = true ↔ (stage_name stage config).isSome = true) ∧
  ∀ n : String, stage_name stage config = some n →
    field_trans_table_has_key config.trans_table (some n) = true ∧
    stage_handle stage config = field_trans_table_lookup config.trans_table n

/-- A configuration is consistent with a registry: the registry is the one it
holds, and the binding of every stage is consistent. -/
def consistent (table : field_trans_table_type) (config : field_config_struct) : Prop :=
  config.trans_table = table ∧ ∀ stage, binding_consistent stage config

/-- The configuration an outcome leaves is consistent with a registry: the
configuration returned, or the one the process ended with. -/
def outcome_consistent (table : field_trans_table_type) :
    Except fatal field_config_struct → Prop
  | .ok config => consistent table config
  | .error (fatal.util_exit _ config) => consistent table config
  | .error fatal.util_abort => False

/-! ## Concrete instances -/

/-- A registry with the two transforms `LN` and `EXP`. -/
def sample_table : field_trans_table_type := field_trans_table_of [("LN", 1), ("EXP", 2)]

/-- Some content of a block of memory before construction. -/
def sample_mem : field_config_struct where
  ecl_kw_name := none
  data_size := 0
  nx := 0
  ny := 0
  nz := 0
  keep_inactive_cells := false
  grid := none
  truncation := 3
  min_value := 0.0
  max_value := 0.0
  export_format := ECL_GRDECL_FILE
  import_format := UNDEFINED_FORMAT
  output_field_name := some "OLD"
  type := GENERAL
  trans_table := field_trans_table_of []
  output_transform := some 7
  init_transform := none
  input_transform := some 9
  output_transform_name := some "OLD_OUT"
  init_transform_name := none
  input_transform_name := some "OLD_IN"

/-- The empty configuration for key `PRESSURE` on grid `G`. -/
def sample_config : field_config_struct :=
  field_config_alloc_empty sample_mem sample_table (some "PRESSURE") (some "G") true

/-- The sample configuration with `LN` bound at the Init stage. -/
def sample_bound : field_config_struct :=
  { sample_config with init_transform_name := some "LN", init_transform := some 1 }

/-- The sample configuration after an update with the Undefined export format,
init `LN`, no input transform, output `EXP` and output field name `PRESSURE`. -/
def sample_undefined : field_config_struct :=
  { sample_config with
    truncation := 0
    min_value := 0.0
    max_value := 0.0
    export_format := UNDEFINED_FORMAT
    type := ECLIPSE_PARAMETER
    init_transform_name := some "LN"
    init_transform := some 1
    output_transform_name := some "EXP"
    output_transform := some 2
    output_field_name := some "PRESSURE" }

/-- The sample configuration after an update with the Null export format, init
`LN`, no input transform, output `EXP` and output field name `PRESSURE`. -/
def sample_null : field_config_struct :=
  { sample_undefined with export_format := FILE_FORMAT_NULL }

/-- The sample configuration after an update with truncation mode 3, bounds 1
and 2, the ROFF format, init `EXP`, input `LN`, no output transform and output
field name `FIRST`. -/
def sample_first : field_config_struct :=
  { sample_config with
    truncation := 3
    min_value := 1.0
    max_value := 2.0
    export_format := RMS_ROFF_FILE
    type := ECLIPSE_PARAMETER
    input_transform_name := some "LN"
    input_transform := some 1
    init_transform_name := some "EXP"
    init_transform := some 2
    output_field_name := some "FIRST" }

/-- The configuration `sample_bound` as an update with truncation mode 3, bounds
1 and 2 and the ROFF format leaves it when its input name is unknown. -/
def sample_failed : field_config_struct :=
  { sample_bound with
    truncation := 3
    min_value := 1.0
    max_value := 2.0
    export_format := RMS_ROFF_FILE
    type := ECLIPSE_PARAMETER }

/-- The sample configuration after `set_dims(2, 3, 4)`, binding `LN` at Init, the
update of the PRESSURE scenario and `set_truncation(1, -1.0, 1.0)`. -/
def sample_reached : field_config_struct :=
  { sample_config with
    nx := 2
    ny := 3
    nz := 4
    truncation := 1
    min_value := -1.0
    max_value := 1.0
    export_format := ECL_KW_FILE_ALL_CELLS
    type := ECLIPSE_PARAMETER
    init_transform_name := some "LN"
    init_transform := some 1
    output_transform_name := some "EXP"
    output_transform := some 2
    output_field_name := some "PRESSURE" }

/-- Four calls: `set_dims(2, 3, 4)`, binding `LN` at Init, the update of the
PRESSURE scenario and `set_truncation(1, -1.0, 1.0)`. -/
def sample_calls : List Call :=
  [Call.set_dims 2 3 4, Call.set_transform Stage.Init (some "LN"),
    Call.update 0 0.0 0.0 ECL_KW_FILE_ALL_CELLS (some "LN") none (some "EXP") (some "PRESSURE"),
    Call.set_truncation 1 (-1.0) 1.0]

/-! ## The three setters, case by case -/

/-- The init setter on a present name: it binds the name when the registry has
it and ends the process otherwise. -/
theorem field_config_set_init_transform_some (config : field_config_struct) (n : String) :
    field_config_set_init_transform config (some n) =
      if field_trans_table_has_key config.trans_table (some n) = true then
        .ok { config with
          init_transform_name := some n
          init_transform := field_trans_table_lookup config.trans_table n }
      else .error (fatal.util_exit n config) := by
  by_cases h : field_trans_table_has_key config.trans_table (some n) = true <;>
    simp [field_config_set_init_transform, h, util_realloc_string_copy]

/-- The init setter on an absent name clears the binding, whatever the registry
answers for an absent name. -/
theorem field_config_set_init_transform_none (config : field_config_struct) :
    field_config_set_init_transform config none =
      .ok { config with init_transform_name := none, init_transform := none } := by
  by_cases h : field_trans_table_has_key config.trans_table none = true <;>
    simp [field_config_set_init_transform, h, util_realloc_string_copy]

/-- The input setter on a present name: it binds the name when the registry has
it and ends the process otherwise. -/
theorem field_config_set_input_transform_some (config : field_config_struct) (n : String) :
    field_config_set_input_transform config (some n) =
      if field_trans_table_has_key config.trans_table (some n) = true then
        .ok { config with
          input_transform_name := some n
          input_transform := field_trans_table_lookup config.trans_table n }
      else .error (fatal.util_exit n config) := by
  by_cases h : field_trans_table_has_key config.trans_table (some n) = true <;>
    simp [field_config_set_input_transform, h, util_realloc_string_copy]

/-- The input setter on an absent name clears the binding, whatever the registry
answers for an absent name. -/
theorem field_config_set_input_transform_none (config : field_config_struct) :
    field_config_set_input_transform config none =
      .ok { config with input_transform_name := none, input_transform := none } := by
  by_cases h : field_trans_table_has_key config.trans_table none = true <;>
    simp [field_config_set_input_transform, h, util_realloc_string_copy]

/-- The output setter on a present name: it binds the name when the registry has
it and ends the process otherwise. -/
theorem field_config_set_output_transform_some (config : field_config_struct) (n : String) :
    field_config_set_output_transform config (some n) =
      if field_trans_table_has_key config.trans_table (some n) = true then
        .ok { config with
          output_transform_name := some n
          output_transform := field_trans_table_lookup config.trans_table n }
      else .error (fatal.util_exit n config) := by
  by_cases h : field_trans_table_has_key config.trans_table (some n) = true <;>
    simp [field_config_set_output_transform, h, util_realloc_string_copy]

/-- The output setter on an absent name clears the binding, whatever the registry
answers for an absent name. -/
theorem field_config_set_output_transform_none (config : field_config_struct) :
    field_config_set_output_transform config none =
      .ok { config with output_transform_name := none, output_transform := none } := by
  by_cases h : field_trans_table_has_key config.trans_table none = true <;>
    simp [field_config_set_output_transform, h, util_realloc_string_copy]

/-- The setter of a stage on a present name. -/
theorem set_transform_some (stage : Stage) (config : field_config_struct) (n : String) :
    set_transform stage config (some n) =
      if field_trans_table_has_key config.trans_table (some n) = true then
        .ok (with_binding stage config (some n) (field_trans_table_lookup config.trans_table n))
      else .error (fatal.util_exit n config) := by
  cases stage
  · exact field_config_set_init_transform_some config n
  · exact field_config_set_input_transform_some config n
  · exact field_config_set_output_transform_some config n

/-- The setter of a stage on an absent name. -/
theorem set_transform_none (stage : Stage) (config : field_config_struct) :
    set_transform stage config none = .ok (with_binding stage config none none) := by
  cases stage
  · exact field_config_set_init_transform_none config
  · exact field_config_set_input_transform_none config
  · exact field_config_set_output_transform_none config

/-- Replacing the binding of a stage gives that stage the new name and handle. -/
theorem with_binding_same (stage : Stage) (config : field_config_struct) (name : Option String)
    (handle : Option field_func_type) :
    stage_name stage (with_binding stage config name handle) = name ∧
    stage_handle stage (with_binding stage config name handle) = handle := by
  cases stage <;> exact ⟨rfl, rfl⟩

/-- Replacing the binding of a stage keeps the name and handle of another stage. -/
theorem with_binding_other (stage other : Stage) (hne : other ≠ stage)
    (config : field_config_struct) (name : Option String) (handle : Option field_func_type) :
    stage_name other (with_binding stage config name handle) = stage_name other config ∧
    stage_handle other (with_binding stage config name handle) = stage_handle other config := by
  cases stage <;> cases other <;> first | exact absurd rfl hne | exact ⟨rfl, rfl⟩

/-- The setter of a stage, for a name that may be absent: it returns with the
binding replaced when the name resolves, and ends the process otherwise. -/
theorem set_transform_of_resolves (stage : Stage) (config : field_config_struct)
    (name : Option String) (h : resolves config.trans_table name = true) :
    set_transform stage config name =
      .ok (with_binding stage config name (resolved_handle config.trans_table name)) := by
  cases name with
  | none => exact set_transform_none stage config
  | some n =>
    have hk : field_trans_table_has_key config.trans_table (some n) = true := h
    rw [set_transform_some, if_pos hk]
    rfl

/-- A setter that returns was given a name that resolves. -/
theorem resolves_of_set_transform (stage : Stage) (config config' : field_config_struct)
    (name : Option String) (h : set_transform stage config name = .ok config') :
    resolves config.trans_table name = true := by
  cases name with
  | none => rfl
  | some n =>
    rw [set_transform_some] at h
    by_cases hk : field_trans_table_has_key config.trans_table (some n) = true
    · exact hk
    · rw [if_neg hk] at h; cases h

/-- The init setter in one formula: it stores the name and its handle when the
name resolves, and otherwise ends the process reporting the name (which is then
present). -/
theorem field_config_set_init_transform_eq (config : field_config_struct)
    (name : Option String) :
    field_config_set_init_transform config name =
      if resolves config.trans_table name = true then
        .ok { config with
          init_transform_name := name
          init_transform := resolved_handle config.trans_table name }
      else .error (fatal.util_exit (name.getD "") config) := by
  cases name with
  | none => rw [field_config_set_init_transform_none]; rfl
  | some n => rw [field_config_set_init_transform_some]; rfl

/-- The input setter in one formula: it stores the name and its handle when the
name resolves, and otherwise ends the process reporting the name (which is then
present). -/
theorem field_config_set_input_transform_eq (config : field_config_struct)
    (name : Option String) :
    field_config_set_input_transform config name =
      if resolves config.trans_table name = true then
        .ok { config with
          input_transform_name := name
          input_transform := resolved_handle config.trans_table name }
      else .error (fatal.util_exit (name.getD "") config) := by
  cases name with
  | none => rw [field_config_set_input_transform_none]; rfl
  | some n => rw [field_config_set_input_transform_some]; rfl

/-- The output setter in one formula: it stores the name and its handle when the
name resolves, and otherwise ends the process reporting the name (which is then
present). -/
theorem field_config_set_output_transform_eq (config : field_config_struct)
    (name : Option String) :
    field_config_set_output_transform config name =
      if resolves config.trans_table name = true then
        .ok { config with
          output_transform_name := name
          output_transform := resolved_handle config.trans_table name }
      else .error (fatal.util_exit (name.getD "") config) := by
  cases name with
  | none => rw [field_config_set_output_transform_none]; rfl
  | some n => rw [field_config_set_output_transform_some]; rfl

/-- The composite update when the three names resolve: it returns the
configuration with every argument stored. -/
theorem field_config_update_field_of_resolves (config : field_config_struct) (truncation : Int)
    (min_value max_value : Float) (export_format : field_file_format_type)
    (init_transform input_transform output_transform output_field_name : Option String)
    (hinit : resolves config.trans_table init_transform = true)
    (hinput : resolves config.trans_table input_transform = true)
    (houtput : resolves config.trans_table output_transform = true) :
    field_config_update_field config truncation min_value max_value export_format
        init_transform input_transform output_transform output_field_name =
      .ok { config with
        truncation := truncation
        min_value := min_value
        max_value := max_value
        export_format := export_format
        type := ECLIPSE_PARAMETER
        input_transform_name := input_transform
        input_transform := resolved_handle config.trans_table input_transform
        init_transform_name := init_transform
        init_transform := resolved_handle config.trans_table init_transform
        output_transform_name := output_transform
        output_transform := resolved_handle config.trans_table output_transform
        output_field_name := output_field_name } := by
  simp [field_config_update_field, field_config_set_input_transform_eq,
    field_config_set_init_transform_eq, field_config_set_output_transform_eq,
    field_config_set_truncation, hinit, hinput, houtput, util_alloc_string_copy]

/-- A composite update that returns was given three names that resolve. -/
theorem resolves_of_field_config_update_field (config config' : field_config_struct)
    (truncation : Int) (min_value max_value : Float) (export_format : field_file_format_type)
    (init_transform input_transform output_transform output_field_name : Option String)
    (h : field_config_update_field config truncation min_value max_value export_format
        init_transform input_transform output_transform output_field_name = .ok config') :
    resolves config.trans_table init_transform = true ∧
    resolves config.trans_table input_transform = true ∧
    resolves config.trans_table output_transform = true := by
  cases hinput : resolves config.trans_table input_transform <;>
    cases hinit : resolves config.trans_table init_transform <;>
    cases houtput : resolves config.trans_table output_transform <;>
    simp [field_config_update_field, field_config_set_input_transform_eq,
      field_config_set_init_transform_eq, field_config_set_output_transform_eq,
      field_config_set_truncation, hinit, hinput, houtput] at h ⊢

/-- The composite update with an unknown input name: the process ends at the
input setter, after the truncation, the export format and the kind were
stored. -/
theorem field_config_update_field_input_unknown (config : field_config_struct)
    (truncation : Int) (min_value max_value : Float) (export_format : field_file_format_type)
    (init_transform output_transform output_field_name : Option String) (n : String)
    (hk : field_trans_table_has_key config.trans_table (some n) = false) :
    field_config_update_field config truncation min_value max_value export_format
        init_transform (some n) output_transform output_field_name =
      .error (fatal.util_exit n { config with
        truncation := truncation
        min_value := min_value
        max_value := max_value
        export_format := export_format
        type := ECLIPSE_PARAMETER }) := by
  have hk' : resolves config.trans_table (some n) = false := hk
  simp [field_config_update_field, field_config_set_input_transform_eq,
    field_config_set_truncation, hk']

/-- The composite update with an input name that resolves and an unknown init
name: the process ends at the init setter, after the input binding was
stored. -/
theorem field_config_update_field_init_unknown (config : field_config_struct)
    (truncation : Int) (min_value max_value : Float) (export_format : field_file_format_type)
    (input_transform output_transform output_field_name : Option String) (n : String)
    (hinput : resolves config.trans_table input_transform = true)
    (hk : field_trans_table_has_key config.trans_table (some n) = false) :
    field_config_update_field config truncation min_value max_value export_format
        (some n) input_transform output_transform output_field_name =
      .error (fatal.util_exit n { config with
        truncation := truncation
        min_value := min_value
        max_value := max_value
        export_format := export_format
        type := ECLIPSE_PARAMETER
        input_transform_name := input_transform
        input_transform := resolved_handle config.trans_table input_transform }) := by
  have hk' : resolves config.trans_table (some n) = false := hk
  simp [field_config_update_field, field_config_set_input_transform_eq,
    field_config_set_init_transform_eq, field_config_set_truncation, hk', hinput]

/-- The composite update with input and init names that resolve and an unknown
output name: the process ends at the output setter, after the input and init
bindings were stored. -/
theorem field_config_update_field_output_unknown (config : field_config_struct)
    (truncation : Int) (min_value max_value : Float) (export_format : field_file_format_type)
    (init_transform input_transform output_field_name : Option String) (n : String)
    (hinput : resolves config.trans_table input_transform = true)
    (hinit : resolves config.trans_table init_transform = true)
    (hk : field_trans_table_has_key config.trans_table (some n) = false) :
    field_config_update_field config truncation min_value max_value export_format
        init_transform input_transform (some n) output_field_name =
      .error (fatal.util_exit n { config with
        truncation := truncation
        min_value := min_value
        max_value := max_value
        export_format := export_format
        type := ECLIPSE_PARAMETER
        input_transform_name := input_transform
        input_transform := resolved_handle config.trans_table input_transform
        init_transform_name := init_transform
        init_transform := resolved_handle config.trans_table init_transform }) := by
  have hk' : resolves config.trans_table (some n) = false := hk
  simp [field_config_update_field, field_config_set_input_transform_eq,
    field_config_set_init_transform_eq, field_config_set_output_transform_eq,
    field_config_set_truncation, hk', hinput, hinit]

/-- A name that does not resolve is present and the registry does not have it. -/
theorem exists_of_not_resolves (table : field_trans_table_type) (name : Option String)
    (h : resolves table name = false) :
    ∃ n, name = some n ∧ field_trans_table_has_key table (some n) = false := by
  cases name with
  | none => cases h
  | some n => exact ⟨n, rfl, h⟩

/-! ## Consistency of the bindings -/

/-- Consistency of a binding depends only on the registry and on the name and
handle of the stage. -/
theorem binding_consistent_congr (stage : Stage) (config config' : field_config_struct)
    (ht : config'.trans_table = config.trans_table)
    (hn : stage_name stage config' = stage_name stage config)
    (hh : stage_handle stage config' = stage_handle stage config)
    (h : binding_consistent stage config) : binding_consistent stage config' := by
  unfold binding_consistent at h ⊢
  rw [ht, hn, hh]
  exact h

/-- A binding made of a name that resolves and of the handle the registry gives
for it is consistent, in a registry that gives a function for every name it
has. -/
theorem binding_consistent_of_resolved (stage : Stage) (config : field_config_struct)
    (name : Option String) (hreg : registry_total config.trans_table)
    (hr : resolves config.trans_table name = true)
    (hn : stage_name stage config = name)
    (hh : stage_handle stage config = resolved_handle config.trans_table name) :
    binding_consistent stage config := by
  unfold binding_consistent
  rw [hn, hh]
  cases name with
  | none => exact ⟨Iff.rfl, fun n h => Option.noConfusion h⟩
  | some m =>
    refine ⟨⟨fun _ => rfl, fun _ => hreg m hr⟩, ?_⟩
    intro n h
    cases h
    exact ⟨hr, rfl⟩

/-- A freshly constructed configuration is consistent with its registry. -/
theorem consistent_alloc_empty (mem : field_config_struct) (table : field_trans_table_type)
    (ecl_kw_name path_to_grid : Option String) (keep_inactive_cells : Bool) :
    consistent table
      (field_config_alloc_empty mem table ecl_kw_name path_to_grid keep_inactive_cells) := by
  refine ⟨rfl, ?_⟩
  intro stage
  cases stage <;> exact ⟨Iff.rfl, fun n h => Option.noConfusion h⟩

/-- The setter of a stage leaves a consistent configuration consistent. -/
theorem outcome_consistent_set_transform (table : field_trans_table_type)
    (hreg : registry_total table) (stage : Stage) (config : field_config_struct)
    (name : Option String) (h : consistent table config) :
    outcome_consistent table (set_transform stage config name) := by
  obtain ⟨rfl, hb⟩ := h
  cases hr : resolves config.trans_table name with
  | false =>
    obtain ⟨n, hn, hk⟩ := exists_of_not_resolves _ _ hr
    subst hn
    rw [set_transform_some, if_neg (by rw [hk]; exact Bool.false_ne_true)]
    exact ⟨rfl, hb⟩
  | true =>
    rw [set_transform_of_resolves stage config name hr]
    refine ⟨by cases stage <;> rfl, ?_⟩
    intro other
    by_cases ho : other = stage
    · subst ho
      exact binding_consistent_of_resolved other _ name (by cases other <;> exact hreg)
        (by cases other <;> exact hr) (with_binding_same other config name _).1
        (by rw [(with_binding_same other config name _).2]; cases other <;> rfl)
    · exact binding_consistent_congr other config _ (by cases stage <;> rfl)
        (with_binding_other stage other ho config name _).1
        (with_binding_other stage other ho config name _).2 (hb other)

/-- The composite update leaves a consistent configuration consistent, also when
it ends the process half-way. -/
theorem outcome_consistent_update_field (table : field_trans_table_type)
    (hreg : registry_total table) (config : field_config_struct) (truncation : Int)
    (min_value max_value : Float) (export_format : field_file_format_type)
    (init_transform input_transform output_transform output_field_name : Option String)
    (h : consistent table config) :
    outcome_consistent table
      (field_config_update_field config truncation min_value max_value export_format
        init_transform input_transform output_transform output_field_name) := by
  obtain ⟨rfl, hb⟩ := h
  cases hinput : resolves config.trans_table input_transform with
  | false =>
    obtain ⟨n, hn, hk⟩ := exists_of_not_resolves _ _ hinput
    subst hn
    rw [field_config_update_field_input_unknown config truncation min_value max_value
      export_format init_transform output_transform output_field_name n hk]
    refine ⟨rfl, fun stage => ?_⟩
    cases stage <;> exact binding_consistent_congr _ config _ rfl rfl rfl (hb _)
  | true =>
    cases hinit : resolves config.trans_table init_transform with
    | false =>
      obtain ⟨n, hn, hk⟩ := exists_of_not_resolves _ _ hinit
      subst hn
      rw [field_config_update_field_init_unknown config truncation min_value max_value
        export_format input_transform output_transform output_field_name n hinput hk]
      refine ⟨rfl, fun stage => ?_⟩
      cases stage
      · exact binding_consistent_congr _ config _ rfl rfl rfl (hb _)
      · exact binding_consistent_of_resolved _ _ input_transform hreg hinput rfl rfl
      · exact binding_consistent_congr _ config _ rfl rfl rfl (hb _)
    | true =>
      cases houtput : resolves config.trans_table output_transform with
      | false =>
        obtain ⟨n, hn, hk⟩ := exists_of_not_resolves _ _ houtput
        subst hn
        rw [field_config_update_field_output_unknown config truncation min_value max_value
          export_format init_transform input_transform output_field_name n hinput hinit hk]
        refine ⟨rfl, fun stage => ?_⟩
        cases stage
        · exact binding_consistent_of_resolved _ _ init_transform hreg hinit rfl rfl
        · exact binding_consistent_of_resolved _ _ input_transform hreg hinput rfl rfl
        · exact binding_consistent_congr _ config _ rfl rfl rfl (hb _)
      | true =>
        rw [field_config_update_field_of_resolves config truncation min_value max_value
          export_format init_transform input_transform output_transform output_field_name
          hinit hinput houtput]
        refine ⟨rfl, fun stage => ?_⟩
        cases stage
        · exact binding_consistent_of_resolved _ _ init_transform hreg hinit rfl rfl
        · exact binding_consistent_of_resolved _ _ input_transform hreg hinput rfl rfl
        · exact binding_consistent_of_resolved _ _ output_transform hreg houtput rfl rfl

/-- One call leaves a consistent configuration consistent. -/
theorem outcome_consistent_call (table : field_trans_table_type) (hreg : registry_total table)
    (config : field_config_struct) (c : Call) (h : consistent table config) :
    outcome_consistent table (call config c) := by
  cases c with
  | set_dims x y z =>
    refine ⟨h.1, fun stage => ?_⟩
    cases stage <;> exact binding_consistent_congr _ config _ rfl rfl rfl (h.2 _)
  | set_truncation truncation min_value max_value =>
    refine ⟨h.1, fun stage => ?_⟩
    cases stage <;> exact binding_consistent_congr _ config _ rfl rfl rfl (h.2 _)
  | set_transform stage name => exact outcome_consistent_set_transform table hreg stage config name h
  | update truncation min_value max_value export_format init_transform input_transform
      output_transform output_field_name =>
    exact outcome_consistent_update_field table hreg config truncation min_value max_value
      export_format init_transform input_transform output_transform output_field_name h

/-- A sequence of calls leaves a consistent configuration consistent. -/
theorem outcome_consistent_calls (table : field_trans_table_type) (hreg : registry_total table)
    (cs : List Call) (config : field_config_struct) (h : consistent table config) :
    outcome_consistent table (calls config cs) := by
  induction cs generalizing config with
  | nil => exact h
  | cons c rest ih =>
    have hc := outcome_consistent_call table hreg config c h
    unfold calls
    cases hcall : call config c with
    | error e =>
      rw [hcall] at hc
      exact hc
    | ok config' =>
      rw [hcall] at hc
      exact ih config' hc

/-- The sample registry gives a function for every name it has. -/
theorem registry_total_sample_table : registry_total sample_table := fun _ h => h

/-! ## Transform binding -/

/-- C1: when the registry of the configuration has the name `n`, the setter of
every stage returns normally, and afterwards the stored name of that stage is
`n` and its resolved handle is what the registry's lookup gives for `n`. -/
theorem set_transform_registered (stage : Stage) (config : field_config_struct) (n : String)
    (h : field_trans_table_has_key config.trans_table (some n) = true) :
    ∃ config', set_transform stage config (some n) = .ok config' ∧
      stage_name stage config' = some n ∧
      stage_handle stage config' = field_trans_table_lookup config.trans_table n := by
  refine ⟨_, ?_, (with_binding_same stage config _ _).1, (with_binding_same stage config _ _).2⟩
  rw [set_transform_some, if_pos h]

/-- Witness of C1: binding the registered name `EXP` to the Output stage of the
sample configuration. -/
theorem set_transform_registered_witness :
    field_trans_table_has_key sample_config.trans_table (some "EXP") = true ∧
    ∃ config', set_transform Stage.Output sample_config (some "EXP") = .ok config' ∧
      stage_name Stage.Output config' = some "EXP" ∧
      stage_handle Stage.Output config' =
        field_trans_table_lookup sample_config.trans_table "EXP" :=
  ⟨by decide, set_transform_registered Stage.Output sample_config "EXP" (by decide)⟩

/-- C2: the setter of a stage ends in the fatal outcome exactly when the name is
present and the registry does not have it (an unregistered empty string
included); it is never fatal for an absent name or a registered one. The fatal
outcome reports that name and leaves the configuration as it was. -/
theorem set_transform_fatal_iff (stage : Stage) (config : field_config_struct)
    (name : Option String) (e : fatal) :
    set_transform stage config name = .error e ↔
      ∃ n, name = some n ∧ field_trans_table_has_key config.trans_table (some n) = false ∧
        e = fatal.util_exit n config := by
  cases name with
  | none =>
    rw [set_transform_none]
    constructor
    · intro h; cases h
    · rintro ⟨n, hn, _⟩; cases hn
  | some m =>
    rw [set_transform_some]
    by_cases h : field_trans_table_has_key config.trans_table (some m) = true
    · rw [if_pos h]
      constructor
      · intro h'; cases h'
      · rintro ⟨n, hn, hf, _⟩
        cases hn
        rw [h] at hf
        cases hf
    · rw [if_neg h]
      constructor
      · intro h'
        cases h'
        exact ⟨m, rfl, Bool.eq_false_iff.mpr h, rfl⟩
      · rintro ⟨n, hn, _, he⟩
        cases hn
        rw [he]

/-- Witness of C2: a present, empty name that is not registered is fatal. -/
theorem set_transform_fatal_iff_witness :
    set_transform Stage.Init sample_config (some "") =
      .error (fatal.util_exit "" sample_config) :=
  (set_transform_fatal_iff Stage.Init sample_config (some "")
    (fatal.util_exit "" sample_config)).mpr ⟨"", rfl, by decide, rfl⟩

/-- C3: with an absent name the setter of every stage returns normally from
every configuration, and afterwards the stored name and the resolved handle of
that stage are both absent. -/
theorem set_transform_absent (stage : Stage) (config : field_config_struct) :
    ∃ config', set_transform stage config none = .ok config' ∧
      stage_name stage config' = none ∧ stage_handle stage config' = none :=
  ⟨_, set_transform_none stage config, (with_binding_same stage config none none).1,
    (with_binding_same stage config none none).2⟩

/-- C4: setting the transform of one stage leaves the stored name and the
resolved handle of each other stage as they were, when the setter returns and
also in the configuration the process ends with when it does not. -/
theorem set_transform_frame (stage other : Stage) (hne : other ≠ stage)
    (config : field_config_struct) (name : Option String) :
    match set_transform stage config name with
    | .ok config' =>
      stage_name other config' = stage_name other config ∧
      stage_handle other config' = stage_handle other config
    | .error (fatal.util_exit _ config') =>
      stage_name other config' = stage_name other config ∧
      stage_handle other config' = stage_handle other config
    | .error fatal.util_abort => False := by
  cases name with
  | none =>
    rw [set_transform_none]
    exact with_binding_other stage other hne config none none
  | some n =>
    rw [set_transform_some]
    by_cases h : field_trans_table_has_key config.trans_table (some n) = true
    · rw [if_pos h]
      exact with_binding_other stage other hne config _ _
    · rw [if_neg h]
      exact ⟨rfl, rfl⟩

/-- Witness of C4: setting Output on a configuration whose Init stage is bound
leaves the Init name and handle as they were. -/
theorem set_transform_frame_witness :
    Stage.Init ≠ Stage.Output ∧
    match set_transform Stage.Output sample_bound (some "EXP") with
    | .ok config' =>
      stage_name Stage.Init config' = stage_name Stage.Init sample_bound ∧
      stage_handle Stage.Init config' = stage_handle Stage.Init sample_bound
    | .error (fatal.util_exit _ config') =>
      stage_name Stage.Init config' = stage_name Stage.Init sample_bound ∧
      stage_handle Stage.Init config' = stage_handle Stage.Init sample_bound
    | .error fatal.util_abort => False :=
  ⟨by decide, set_transform_frame Stage.Output Stage.Init (by decide) sample_bound (some "EXP")⟩

/-! ## Export format inference -/

/-- The code of a small number, taken as a character, is that number. -/
theorem toNat_ofNat_small (k : Nat) (h : k < 55296) : (Char.ofNat k).toNat = k := by
  unfold Char.ofNat
  have hv : k.isValidChar := Or.inl h
  rw [dif_pos hv]
  simp [Char.ofNatAux, Char.toNat, UInt32.toNat]

/-- Characters with the same code are the same. -/
theorem char_eq_of_toNat_eq (a b : Char) (h : a.toNat = b.toNat) : a = b := by
  rw [← Char.ofNat_toNat a, ← Char.ofNat_toNat b, h]

/-- Raising a character gives the capital `u` exactly when lowering it gives
what lowering `u` gives. -/
theorem toUpper_eq_iff (c u : Char) (hu : 65 ≤ u.toNat ∧ u.toNat ≤ 90) :
    c.toUpper = u ↔ c.toLower = u.toLower := by
  have hul : u.toLower.toNat = u.toNat + 32 := by
    unfold Char.toLower
    simp only [ge_iff_le, hu, and_self, if_true]
    exact toNat_ofNat_small _ (by omega)
  by_cases h1 : 97 ≤ c.toNat ∧ c.toNat ≤ 122
  · have hcu : c.toUpper.toNat = c.toNat - 32 := by
      unfold Char.toUpper
      simp only [ge_iff_le, h1, and_self, if_true]
      exact toNat_ofNat_small _ (by omega)
    have hcl : c.toLower = c := by
      unfold Char.toLower
      simp only [ge_iff_le]
      rw [if_neg (by omega)]
    rw [hcl]
    constructor
    · intro h; apply char_eq_of_toNat_eq; rw [hul, ← h, hcu]; omega
    · intro h; apply char_eq_of_toNat_eq; rw [hcu, h, hul]; omega
  · have hcu : c.toUpper = c := by
      unfold Char.toUpper
      simp only [ge_iff_le]
      rw [if_neg h1]
    rw [hcu]
    by_cases h2 : 65 ≤ c.toNat ∧ c.toNat ≤ 90
    · have hcl : c.toLower.toNat = c.toNat + 32 := by
        unfold Char.toLower
        simp only [ge_iff_le, h2, and_self, if_true]
        exact toNat_ofNat_small _ (by omega)
      constructor
      · intro h; apply char_eq_of_toNat_eq; rw [hul, hcl, h]
      · intro h
        apply char_eq_of_toNat_eq
        have := congrArg Char.toNat h
        rw [hul, hcl] at this
        omega
    · have hcl : c.toLower = c := by
        unfold Char.toLower
        simp only [ge_iff_le]
        rw [if_neg h2]
      rw [hcl]
      constructor
      · intro h; subst h; exact absurd hu h2
      · intro h; exfalso; apply h1; rw [h, hul]; omega

/-- Raising every character of a list gives a list of capitals `t` exactly when
the list and `t` agree once lowered. -/
theorem map_toUpper_eq_iff (l t : List Char) (ht : ∀ u ∈ t, 65 ≤ u.toNat ∧ u.toNat ≤ 90) :
    l.map Char.toUpper = t ↔ l.map Char.toLower = t.map Char.toLower := by
  induction l generalizing t with
  | nil => cases t <;> simp
  | cons c l ih =>
    cases t with
    | nil => simp
    | cons u t =>
      simp only [List.map_cons, List.cons.injEq]
      rw [toUpper_eq_iff c u (ht u (List.mem_cons_self u t)),
        ih t (fun v hv => ht v (List.mem_cons_of_mem u hv))]

/-- The comparison the code makes after `util_strupr` is the case-insensitive
comparison with a word of capitals. -/
theorem util_strupr_eq_iff (e w : String) (hw : ∀ u ∈ w.toList, 65 ≤ u.toNat ∧ u.toNat ≤ 90) :
    util_strupr e = w ↔ eq_ignoring_case e w = true := by
  unfold util_strupr eq_ignoring_case
  rw [decide_eq_true_iff, ← map_toUpper_eq_iff e.toList w.toList hw]
  constructor
  · intro h; subst h; rfl
  · intro h; rw [h]; cases w; rfl

/-- C5: the export format the code infers is the one of the reference
definition for every optional filename: Null without a filename, GRDECL and
ROFF for these extensions compared case-insensitively, all-cells otherwise; and
`x.grdecl`, `X.GRDECL` give GRDECL, `x.roff` gives ROFF, `x.dat` and `x` give
all-cells. -/
theorem default_export_format_eq_infer :
    (∀ filename : Option String,
      field_config_default_export_format filename = infer_export_format filename) ∧
    field_config_default_export_format none = FILE_FORMAT_NULL ∧
    field_config_default_export_format (some "x.grdecl") = ECL_GRDECL_FILE ∧
    field_config_default_export_format (some "X.GRDECL") = ECL_GRDECL_FILE ∧
    field_config_default_export_format (some "x.roff") = RMS_ROFF_FILE ∧
    field_config_default_export_format (some "x.dat") = ECL_KW_FILE_ALL_CELLS ∧
    field_config_default_export_format (some "x") = ECL_KW_FILE_ALL_CELLS := by
  refine ⟨?_, rfl, by decide, by decide, by decide, by decide, by decide⟩
  intro filename
  cases filename with
  | none => rfl
  | some f =>
    cases hx : util_alloc_file_components f with
    | none => simp only [field_config_default_export_format, infer_export_format, hx]
    | some e =>
      have hG := util_strupr_eq_iff e "GRDECL" (by decide)
      have hR := util_strupr_eq_iff e "ROFF" (by decide)
      simp only [field_config_default_export_format, infer_export_format, hx, hG, hR]

/-! ## Composite update and validity -/

/-- C6: after an update that returns normally (which is the case exactly when
every present transform name is registered) the declared kind is
EclipseParameter, and the validity check returns, never ending the process:
true when the export format passed to the update is not Undefined, false when
it is. -/
theorem update_then_is_valid (config config' : field_config_struct) (truncation : Int)
    (min_value max_value : Float) (export_format : field_file_format_type)
    (init_transform input_transform output_transform output_field_name : Option String)
    (h : field_config_update_field config truncation min_value max_value export_format
        init_transform input_transform output_transform output_field_name = .ok config') :
    (resolves config.trans_table init_transform = true ∧
      resolves config.trans_table input_transform = true ∧
      resolves config.trans_table output_transform = true) ∧
    field_config_get_type config' = ECLIPSE_PARAMETER ∧
    field_config_is_valid config' = .ok (decide (export_format ≠ UNDEFINED_FORMAT)) := by
  have hr := resolves_of_field_config_update_field config config' truncation min_value
    max_value export_format init_transform input_transform output_transform output_field_name h
  rw [field_config_update_field_of_resolves config truncation min_value max_value export_format
    init_transform input_transform output_transform output_field_name hr.1 hr.2.1 hr.2.2] at h
  cases h
  exact ⟨hr, rfl, rfl⟩

/-- Witness of C6: the update of the sample configuration with the Undefined
export format returns, and the validity check then returns false. -/
theorem update_then_is_valid_witness :
    field_config_update_field sample_config 0 0.0 0.0 UNDEFINED_FORMAT
        (some "LN") none (some "EXP") (some "PRESSURE") = .ok sample_undefined ∧
    ((resolves sample_config.trans_table (some "LN") = true ∧
      resolves sample_config.trans_table none = true ∧
      resolves sample_config.trans_table (some "EXP") = true) ∧
    field_config_get_type sample_undefined = ECLIPSE_PARAMETER ∧
    field_config_is_valid sample_undefined =
      .ok (decide (UNDEFINED_FORMAT ≠ UNDEFINED_FORMAT))) :=
  ⟨rfl, update_then_is_valid sample_config sample_undefined 0 0.0 0.0 UNDEFINED_FORMAT
    (some "LN") none (some "EXP") (some "PRESSURE") rfl⟩

/-- C7: an update whose present transform names are all registered returns, and
afterwards the truncation mode and bounds and the export format are the
arguments, the kind is EclipseParameter, each of the Init, Input and Output
bindings is the argument name with the registry's lookup of it (absent and
absent for an absent argument), and the output field name is the argument. -/
theorem update_postcondition (config : field_config_struct) (truncation : Int)
    (min_value max_value : Float) (export_format : field_file_format_type)
    (init_transform input_transform output_transform output_field_name : Option String)
    (hinit : resolves config.trans_table init_transform = true)
    (hinput : resolves config.trans_table input_transform = true)
    (houtput : resolves config.trans_table output_transform = true) :
    ∃ config', field_config_update_field config truncation min_value max_value export_format
        init_transform input_transform output_transform output_field_name = .ok config' ∧
      field_config_get_truncation_mode config' = truncation ∧
      field_config_get_truncation_min config' = min_value ∧
      field_config_get_truncation_max config' = max_value ∧
      field_config_get_export_format config' = export_format ∧
      field_config_get_type config' = ECLIPSE_PARAMETER ∧
      stage_name Stage.Init config' = init_transform ∧
      stage_handle Stage.Init config' = resolved_handle config.trans_table init_transform ∧
      stage_name Stage.Input config' = input_transform ∧
      stage_handle Stage.Input config' = resolved_handle config.trans_table input_transform ∧
      stage_name Stage.Output config' = output_transform ∧
      stage_handle Stage.Output config' = resolved_handle config.trans_table output_transform ∧
      field_config_get_output_file_name config' = output_field_name :=
  ⟨_, field_config_update_field_of_resolves config truncation min_value max_value export_format
      init_transform input_transform output_transform output_field_name hinit hinput houtput,
    rfl, rfl, rfl, rfl, rfl, rfl, rfl, rfl, rfl, rfl, rfl, rfl⟩

/-- Witness of C7: the configuration for key `PRESSURE` updated with init `LN`,
no input transform, output `EXP` and output field name `PRESSURE`, in a registry
that has `LN` and `EXP`. -/
theorem update_postcondition_witness :
    (resolves sample_config.trans_table (some "LN") = true ∧
      resolves sample_config.trans_table none = true ∧
      resolves sample_config.trans_table (some "EXP") = true) ∧
    ∃ config', field_config_update_field sample_config TRUNCATE_NONE 0.0 0.0
        ECL_KW_FILE_ALL_CELLS (some "LN") none (some "EXP") (some "PRESSURE") = .ok config' ∧
      field_config_get_truncation_mode config' = TRUNCATE_NONE ∧
      field_config_get_truncation_min config' = 0.0 ∧
      field_config_get_truncation_max config' = 0.0 ∧
      field_config_get_export_format config' = ECL_KW_FILE_ALL_CELLS ∧
      field_config_get_type config' = ECLIPSE_PARAMETER ∧
      stage_name Stage.Init config' = some "LN" ∧
      stage_handle Stage.Init config' = resolved_handle sample_config.trans_table (some "LN") ∧
      stage_name Stage.Input config' = none ∧
      stage_handle Stage.Input config' = resolved_handle sample_config.trans_table none ∧
      stage_name Stage.Output config' = some "EXP" ∧
      stage_handle Stage.Output config' =
        resolved_handle sample_config.trans_table (some "EXP") ∧
      field_config_get_output_file_name config' = some "PRESSURE" :=
  ⟨⟨by decide, by decide, by decide⟩,
    update_postcondition sample_config TRUNCATE_NONE 0.0 0.0 ECL_KW_FILE_ALL_CELLS (some "LN")
      none (some "EXP") (some "PRESSURE") (by decide) (by decide) (by decide)⟩

/-- C8: for a configuration whose kind is EclipseParameter, EclipseRestart or
General the validity check returns normally; its result is true exactly when
the export format is not Undefined for EclipseParameter and for General, and
true whatever the export format for EclipseRestart; every configuration with the
same kind and export format gets the same result. -/
theorem is_valid_by_kind (field_config : field_config_struct)
    (h : field_config.type = ECLIPSE_PARAMETER ∨ field_config.type = ECLIPSE_RESTART ∨
      field_config.type = GENERAL) :
    ∃ valid, field_config_is_valid field_config = .ok valid ∧
      (field_config.type = ECLIPSE_PARAMETER →
        (valid = true ↔ field_config.export_format ≠ UNDEFINED_FORMAT)) ∧
      (field_config.type = ECLIPSE_RESTART → valid = true) ∧
      (field_config.type = GENERAL →
        (valid = true ↔ field_config.export_format ≠ UNDEFINED_FORMAT)) ∧
      ∀ other : field_config_struct, other.type = field_config.type →
        other.export_format = field_config.export_format →
        field_config_is_valid other = .ok valid := by
  rcases h with h | h | h
  · refine ⟨decide (field_config.export_format ≠ UNDEFINED_FORMAT), ?_, ?_, ?_, ?_, ?_⟩
    · simp only [field_config_is_valid, h]
    · intro _; exact decide_eq_true_iff
    · intro h'; rw [h] at h'; cases h'
    · intro _; exact decide_eq_true_iff
    · intro other ht hf; simp only [field_config_is_valid, ht, h, hf]
  · refine ⟨true, ?_, ?_, ?_, ?_, ?_⟩
    · simp only [field_config_is_valid, h]
    · intro h'; rw [h] at h'; cases h'
    · intro _; rfl
    · intro h'; rw [h] at h'; cases h'
    · intro other ht _; simp only [field_config_is_valid, ht, h]
  · refine ⟨decide (field_config.export_format ≠ UNDEFINED_FORMAT), ?_, ?_, ?_, ?_, ?_⟩
    · simp only [field_config_is_valid, h]
    · intro _; exact decide_eq_true_iff
    · intro h'; rw [h] at h'; cases h'
    · intro _; exact decide_eq_true_iff
    · intro other ht hf; simp only [field_config_is_valid, ht, h, hf]

/-- Witness of C8: a configuration of kind General with the GRDECL export
format. -/
theorem is_valid_by_kind_witness :
    (sample_mem.type = ECLIPSE_PARAMETER ∨ sample_mem.type = ECLIPSE_RESTART ∨
      sample_mem.type = GENERAL) ∧
    ∃ valid, field_config_is_valid sample_mem = .ok valid ∧
      (sample_mem.type = ECLIPSE_PARAMETER →
        (valid = true ↔ sample_mem.export_format ≠ UNDEFINED_FORMAT)) ∧
      (sample_mem.type = ECLIPSE_RESTART → valid = true) ∧
      (sample_mem.type = GENERAL →
        (valid = true ↔ sample_mem.export_format ≠ UNDEFINED_FORMAT)) ∧
      ∀ other : field_config_struct, other.type = sample_mem.type →
        other.export_format = sample_mem.export_format →
        field_config_is_valid other = .ok valid :=
  ⟨Or.inr (Or.inr rfl), is_valid_by_kind sample_mem (Or.inr (Or.inr rfl))⟩

/-- C9: the validity check ends in the fatal outcome, instead of returning,
exactly when the declared kind is none of EclipseParameter, EclipseRestart and
General, that is when it is Unknown; on a freshly constructed configuration it
is fatal. -/
theorem is_valid_fatal_iff (field_config mem : field_config_struct)
    (table : field_trans_table_type) (ecl_kw_name path_to_grid : Option String)
    (keep_inactive_cells : Bool) :
    ((∃ e, field_config_is_valid field_config = .error e) ↔
      (field_config.type ≠ ECLIPSE_PARAMETER ∧ field_config.type ≠ ECLIPSE_RESTART ∧
        field_config.type ≠ GENERAL)) ∧
    ((∃ e, field_config_is_valid field_config = .error e) ↔
      field_config.type = UNKNOWN_FIELD_TYPE) ∧
    ((∃ e, field_config_is_valid field_config = .error e) ↔
      field_config_is_valid field_config = .error fatal.util_abort) ∧
    field_config_is_valid
        (field_config_alloc_empty mem table ecl_kw_name path_to_grid keep_inactive_cells) =
      .error fatal.util_abort := by
  refine ⟨?_, ?_, ?_, rfl⟩ <;>
    cases ht : field_config.type <;> simp [field_config_is_valid, ht]

/-! ## Truncation -/

/-- C10: after `set_truncation(mode, min, max)` the three getters return exactly
the mode, the minimum and the maximum that were passed, whatever they are and in
every configuration; in particular the bounds -1.0 and 1.0 are read back. -/
theorem set_truncation_read_back (config : field_config_struct) (truncation : Int)
    (min_value max_value : Float) :
    (field_config_get_truncation_mode
        (field_config_set_truncation config truncation min_value max_value) = truncation ∧
      field_config_get_truncation_min
        (field_config_set_truncation config truncation min_value max_value) = min_value ∧
      field_config_get_truncation_max
        (field_config_set_truncation config truncation min_value max_value) = max_value) ∧
    (field_config_get_truncation_mode
        (field_config_set_truncation config truncation (-1.0) 1.0) = truncation ∧
      field_config_get_truncation_min
        (field_config_set_truncation config truncation (-1.0) 1.0) = -1.0 ∧
      field_config_get_truncation_max
        (field_config_set_truncation config truncation (-1.0) 1.0) = 1.0) :=
  ⟨⟨rfl, rfl, rfl⟩, ⟨rfl, rfl, rfl⟩⟩

/-! ## Geometry -/

/-- C11: for a configuration that keeps inactive cells, after
`set_dims(nx, ny, nz)` the data size the getter reports is nx·ny·nz. -/
theorem set_dims_data_size (config : field_config_struct) (x y z active_size : Int)
    (h : field_config_keep_inactive_cells config = true) :
    field_config_get_data_size (field_config_set_dims config x y z) active_size = x * y * z := by
  have hk : config.keep_inactive_cells = true := h
  simp [field_config_get_data_size, field_config_set_dims, hk]

/-- Witness of C11: the sample configuration, which keeps inactive cells, with
dimensions 2, 3 and 4. -/
theorem set_dims_data_size_witness :
    field_config_keep_inactive_cells sample_config = true ∧
    field_config_get_data_size (field_config_set_dims sample_config 2 3 4) 0 = 2 * 3 * 4 :=
  ⟨rfl, set_dims_data_size sample_config 2 3 4 0 rfl⟩

/-! ## Construction -/

/-- C17: the configuration that construction returns has the key, the grid and
the cell policy of the arguments, kind Unknown, truncation mode None, no output
field name, and no name and no handle at any of the three stages. -/
theorem alloc_empty_defaults (mem : field_config_struct) (table : field_trans_table_type)
    (ecl_kw_name path_to_grid : Option String) (keep_inactive_cells : Bool) (stage : Stage) :
    field_config_get_key
        (field_config_alloc_empty mem table ecl_kw_name path_to_grid keep_inactive_cells) =
      ecl_kw_name ∧
    field_config_get_grid_name
        (field_config_alloc_empty mem table ecl_kw_name path_to_grid keep_inactive_cells) =
      path_to_grid ∧
    field_config_keep_inactive_cells
        (field_config_alloc_empty mem table ecl_kw_name path_to_grid keep_inactive_cells) =
      keep_inactive_cells ∧
    field_config_get_type
        (field_config_alloc_empty mem table ecl_kw_name path_to_grid keep_inactive_cells) =
      UNKNOWN_FIELD_TYPE ∧
    field_config_get_truncation_mode
        (field_config_alloc_empty mem table ecl_kw_name path_to_grid keep_inactive_cells) =
      TRUNCATE_NONE ∧
    field_config_get_output_file_name
        (field_config_alloc_empty mem table ecl_kw_name path_to_grid keep_inactive_cells) =
      none ∧
    stage_name stage
        (field_config_alloc_empty mem table ecl_kw_name path_to_grid keep_inactive_cells) =
      none ∧
    stage_handle stage
        (field_config_alloc_empty mem table ecl_kw_name path_to_grid keep_inactive_cells) =
      none := by
  refine ⟨rfl, rfl, rfl, rfl, rfl, rfl, ?_, ?_⟩ <;> cases stage <;> rfl

/-- C18, as the code has it: construction does not assign the export format, so
on a freshly constructed configuration the getter returns what the allocated
record held in that field. -/
theorem alloc_empty_export_format (mem : field_config_struct) (table : field_trans_table_type)
    (ecl_kw_name path_to_grid : Option String) (keep_inactive_cells : Bool) :
    field_config_get_export_format
        (field_config_alloc_empty mem table ecl_kw_name path_to_grid keep_inactive_cells) =
      field_config_get_export_format mem :=
  rfl

/-- C18 fails as stated: a freshly constructed configuration whose export
format is neither Undefined nor Null. -/
theorem alloc_empty_export_format_not_default :
    field_config_get_export_format
        (field_config_alloc_empty sample_mem sample_table (some "PRESSURE") (some "G") true) ≠
      UNDEFINED_FORMAT ∧
    field_config_get_export_format
        (field_config_alloc_empty sample_mem sample_table (some "PRESSURE") (some "G") true) ≠
      FILE_FORMAT_NULL := by
  constructor <;> decide

/-! ## Kind and export format across the operations -/

/-- C16: `set_dims`, `set_truncation` and the setter of every stage leave the
declared kind as it was before the call (for a setter: in the configuration it
returns, and the configuration is untouched when it ends the process), while
the update sets the kind. The getters and the validity check take the
configuration read-only and return a value only. -/
theorem kind_unchanged (config : field_config_struct) (x y z truncation : Int)
    (min_value max_value : Float) (stage : Stage) (name : Option String) :
    field_config_get_type (field_config_set_dims config x y z) = field_config_get_type config ∧
    field_config_get_type (field_config_set_truncation config truncation min_value max_value) =
      field_config_get_type config ∧
    (match set_transform stage config name with
      | .ok config' => field_config_get_type config' = field_config_get_type config
      | .error (fatal.util_exit _ config') =>
        field_config_get_type config' = field_config_get_type config
      | .error fatal.util_abort => False) := by
  refine ⟨rfl, rfl, ?_⟩
  cases name with
  | none =>
    rw [set_transform_none]
    cases stage <;> rfl
  | some n =>
    rw [set_transform_some]
    by_cases h : field_trans_table_has_key config.trans_table (some n) = true
    · rw [if_pos h]
      cases stage <;> rfl
    · rw [if_neg h]

/-- C19: the export format inferred from an optional filename is never
Undefined: it is Null, all-cells, GRDECL or ROFF, and Null exactly when the
filename is absent; so after an update that returns normally with the inferred
format, the validity check returns true, also for an absent filename. -/
theorem inferred_format_is_valid (filename : Option String) :
    field_config_default_export_format filename ≠ UNDEFINED_FORMAT ∧
    (field_config_default_export_format filename = FILE_FORMAT_NULL ∨
      field_config_default_export_format filename = ECL_KW_FILE_ALL_CELLS ∨
      field_config_default_export_format filename = ECL_GRDECL_FILE ∨
      field_config_default_export_format filename = RMS_ROFF_FILE) ∧
    (field_config_default_export_format filename = FILE_FORMAT_NULL ↔ filename = none) ∧
    ∀ (config config' : field_config_struct) (truncation : Int) (min_value max_value : Float)
      (init_transform input_transform output_transform output_field_name : Option String),
      field_config_update_field config truncation min_value max_value
          (field_config_default_export_format filename) init_transform input_transform
          output_transform output_field_name = .ok config' →
        field_config_is_valid config' = .ok true := by
  have hne : field_config_default_export_format filename ≠ UNDEFINED_FORMAT := by
    cases filename with
    | none => simp [field_config_default_export_format]
    | some f =>
      simp only [field_config_default_export_format]
      split
      · simp
      · split
        · simp
        · split <;> simp
  refine ⟨hne, ?_, ?_, ?_⟩
  · cases filename with
    | none => exact Or.inl rfl
    | some f =>
      simp only [field_config_default_export_format]
      split
      · simp
      · split
        · simp
        · split <;> simp
  · cases filename with
    | none => simp [field_config_default_export_format]
    | some f =>
      simp only [field_config_default_export_format]
      split
      · simp
      · split
        · simp
        · split <;> simp
  · intro config config' truncation min_value max_value init_transform input_transform
      output_transform output_field_name h
    have hr := resolves_of_field_config_update_field config config' truncation min_value
      max_value _ init_transform input_transform output_transform output_field_name h
    rw [field_config_update_field_of_resolves config truncation min_value max_value _
      init_transform input_transform output_transform output_field_name hr.1 hr.2.1 hr.2.2] at h
    cases h
    simp [field_config_is_valid, hne]

/-- Witness of C19: the update of the sample configuration with the format
inferred from an absent filename, which is Null, returns, and the validity check
then returns true. -/
theorem inferred_format_is_valid_witness :
    field_config_update_field sample_config 0 0.0 0.0 (field_config_default_export_format none)
        (some "LN") none (some "EXP") (some "PRESSURE") = .ok sample_null ∧
    field_config_is_valid sample_null = .ok true :=
  ⟨rfl, (inferred_format_is_valid none).2.2.2 sample_config sample_null 0 0.0 0.0
    (some "LN") none (some "EXP") (some "PRESSURE") rfl⟩

/-! ## Repeated and failing updates -/

/-- C12: the update is last-write-wins. After an update `a` that returns, an
update `b` returns a state exactly when `b` alone on the original state returns
that same state, equal in every field; and an update `b` applied again to its
own result returns that result. -/
theorem update_last_write_wins (s s_a : field_config_struct)
    (truncation_a : Int) (min_a max_a : Float) (format_a : field_file_format_type)
    (init_a input_a output_a name_a : Option String)
    (truncation_b : Int) (min_b max_b : Float) (format_b : field_file_format_type)
    (init_b input_b output_b name_b : Option String)
    (ha : field_config_update_field s truncation_a min_a max_a format_a
        init_a input_a output_a name_a = .ok s_a) :
    (∀ s_b : field_config_struct,
      field_config_update_field s_a truncation_b min_b max_b format_b
          init_b input_b output_b name_b = .ok s_b ↔
        field_config_update_field s truncation_b min_b max_b format_b
          init_b input_b output_b name_b = .ok s_b) ∧
    (∀ s_b : field_config_struct,
      field_config_update_field s truncation_b min_b max_b format_b
          init_b input_b output_b name_b = .ok s_b →
        field_config_update_field s_b truncation_b min_b max_b format_b
          init_b input_b output_b name_b = .ok s_b) := by
  have hra := resolves_of_field_config_update_field s s_a truncation_a min_a max_a format_a
    init_a input_a output_a name_a ha
  rw [field_config_update_field_of_resolves s truncation_a min_a max_a format_a
    init_a input_a output_a name_a hra.1 hra.2.1 hra.2.2] at ha
  cases ha
  constructor
  · intro s_b
    constructor
    · intro hb
      have hrb := resolves_of_field_config_update_field _ s_b truncation_b min_b max_b format_b
        init_b input_b output_b name_b hb
      rw [field_config_update_field_of_resolves _ truncation_b min_b max_b format_b
        init_b input_b output_b name_b hrb.1 hrb.2.1 hrb.2.2] at hb
      cases hb
      exact field_config_update_field_of_resolves s truncation_b min_b max_b format_b
        init_b input_b output_b name_b hrb.1 hrb.2.1 hrb.2.2
    · intro hb
      have hrb := resolves_of_field_config_update_field s s_b truncation_b min_b max_b format_b
        init_b input_b output_b name_b hb
      rw [field_config_update_field_of_resolves s truncation_b min_b max_b format_b
        init_b input_b output_b name_b hrb.1 hrb.2.1 hrb.2.2] at hb
      cases hb
      exact field_config_update_field_of_resolves _ truncation_b min_b max_b format_b
        init_b input_b output_b name_b hrb.1 hrb.2.1 hrb.2.2
  · intro s_b hb
    have hrb := resolves_of_field_config_update_field s s_b truncation_b min_b max_b format_b
      init_b input_b output_b name_b hb
    rw [field_config_update_field_of_resolves s truncation_b min_b max_b format_b
      init_b input_b output_b name_b hrb.1 hrb.2.1 hrb.2.2] at hb
    cases hb
    exact field_config_update_field_of_resolves _ truncation_b min_b max_b format_b
      init_b input_b output_b name_b hrb.1 hrb.2.1 hrb.2.2

/-- Witness of C12: on the sample configuration, an update with init `EXP`,
input `LN` and the ROFF format, followed by the update of the PRESSURE
scenario. -/
theorem update_last_write_wins_witness :
    field_config_update_field sample_config 3 1.0 2.0 RMS_ROFF_FILE
        (some "EXP") (some "LN") none (some "FIRST") = .ok sample_first ∧
    ((∀ s_b : field_config_struct,
      field_config_update_field sample_first 0 0.0 0.0 UNDEFINED_FORMAT
          (some "LN") none (some "EXP") (some "PRESSURE") = .ok s_b ↔
        field_config_update_field sample_config 0 0.0 0.0 UNDEFINED_FORMAT
          (some "LN") none (some "EXP") (some "PRESSURE") = .ok s_b) ∧
    (∀ s_b : field_config_struct,
      field_config_update_field sample_config 0 0.0 0.0 UNDEFINED_FORMAT
          (some "LN") none (some "EXP") (some "PRESSURE") = .ok s_b →
        field_config_update_field s_b 0 0.0 0.0 UNDEFINED_FORMAT
          (some "LN") none (some "EXP") (some "PRESSURE") = .ok s_b)) :=
  ⟨rfl, update_last_write_wins sample_config sample_first 3 1.0 2.0 RMS_ROFF_FILE
    (some "EXP") (some "LN") none (some "FIRST") 0 0.0 0.0 UNDEFINED_FORMAT
    (some "LN") none (some "EXP") (some "PRESSURE") rfl⟩

/-- C13: the update is not atomic. When it ends the process, some transform
name is unknown, and the configuration the process ends with already holds the
new truncation mode and bounds, the new export format and the kind
EclipseParameter, while the output field name is the old one; when the unknown
name is the input name, the three bindings are the old ones too. -/
theorem update_not_atomic (config : field_config_struct) (truncation : Int)
    (min_value max_value : Float) (export_format : field_file_format_type)
    (init_transform input_transform output_transform output_field_name : Option String)
    (e : fatal)
    (h : field_config_update_field config truncation min_value max_value export_format
        init_transform input_transform output_transform output_field_name = .error e) :
    ∃ name config', e = fatal.util_exit name config' ∧
      (input_transform = some name ∨ init_transform = some name ∨
        output_transform = some name) ∧
      field_trans_table_has_key config.trans_table (some name) = false ∧
      field_config_get_truncation_mode config' = truncation ∧
      field_config_get_truncation_min config' = min_value ∧
      field_config_get_truncation_max config' = max_value ∧
      field_config_get_export_format config' = export_format ∧
      field_config_get_type config' = ECLIPSE_PARAMETER ∧
      field_config_get_output_file_name config' = field_config_get_output_file_name config ∧
      (resolves config.trans_table input_transform = false →
        input_transform = some name ∧
        ∀ stage, stage_name stage config' = stage_name stage config ∧
          stage_handle stage config' = stage_handle stage config) := by
  cases hinput : resolves config.trans_table input_transform with
  | false =>
    obtain ⟨n, hn, hk⟩ := exists_of_not_resolves _ _ hinput
    subst hn
    rw [field_config_update_field_input_unknown config truncation min_value max_value
      export_format init_transform output_transform output_field_name n hk] at h
    cases h
    refine ⟨n, _, rfl, Or.inl rfl, hk, rfl, rfl, rfl, rfl, rfl, rfl, fun _ => ⟨rfl, ?_⟩⟩
    intro stage
    cases stage <;> exact ⟨rfl, rfl⟩
  | true =>
    cases hinit : resolves config.trans_table init_transform with
    | false =>
      obtain ⟨n, hn, hk⟩ := exists_of_not_resolves _ _ hinit
      subst hn
      rw [field_config_update_field_init_unknown config truncation min_value max_value
        export_format input_transform output_transform output_field_name n hinput hk] at h
      cases h
      exact ⟨n, _, rfl, Or.inr (Or.inl rfl), hk, rfl, rfl, rfl, rfl, rfl, rfl,
        fun hf => Bool.noConfusion hf⟩
    | true =>
      cases houtput : resolves config.trans_table output_transform with
      | false =>
        obtain ⟨n, hn, hk⟩ := exists_of_not_resolves _ _ houtput
        subst hn
        rw [field_config_update_field_output_unknown config truncation min_value max_value
          export_format init_transform input_transform output_field_name n hinput hinit hk] at h
        cases h
        exact ⟨n, _, rfl, Or.inr (Or.inr rfl), hk, rfl, rfl, rfl, rfl, rfl, rfl,
          fun hf => Bool.noConfusion hf⟩
      | true =>
        rw [field_config_update_field_of_resolves config truncation min_value max_value
          export_format init_transform input_transform output_transform output_field_name
          hinit hinput houtput] at h
        cases h

/-- Witness of C13: the update of a configuration with `LN` bound at Init, with
the unknown input name `UNKNOWN`. -/
theorem update_not_atomic_witness :
    field_config_update_field sample_bound 3 1.0 2.0 RMS_ROFF_FILE
        (some "EXP") (some "UNKNOWN") (some "EXP") (some "OUT") =
      .error (fatal.util_exit "UNKNOWN" sample_failed) ∧
    ∃ name config', fatal.util_exit "UNKNOWN" sample_failed = fatal.util_exit name config' ∧
      (some "UNKNOWN" = some name ∨ some "EXP" = some name ∨ some "EXP" = some name) ∧
      field_trans_table_has_key sample_bound.trans_table (some name) = false ∧
      field_config_get_truncation_mode config' = 3 ∧
      field_config_get_truncation_min config' = 1.0 ∧
      field_config_get_truncation_max config' = 2.0 ∧
      field_config_get_export_format config' = RMS_ROFF_FILE ∧
      field_config_get_type config' = ECLIPSE_PARAMETER ∧
      field_config_get_output_file_name config' =
        field_config_get_output_file_name sample_bound ∧
      (resolves sample_bound.trans_table (some "UNKNOWN") = false →
        some "UNKNOWN" = some name ∧
        ∀ stage, stage_name stage config' = stage_name stage sample_bound ∧
          stage_handle stage config' = stage_handle stage sample_bound) :=
  ⟨rfl, update_not_atomic sample_bound 3 1.0 2.0 RMS_ROFF_FILE (some "EXP") (some "UNKNOWN")
    (some "EXP") (some "OUT") (fatal.util_exit "UNKNOWN" sample_failed) rfl⟩

/-- C15: the update resolves Input, then Init, then Output. An unknown input
name is the one reported, whatever the init and output names are. With an input
name that resolves, an unknown init name is the one reported, and the process
ends with the Input binding committed and the Output binding untouched. With
input and init names that resolve, an unknown output name is the one reported,
after both bindings were committed; so the output name is reported only in that
case. -/
theorem update_resolution_order (config : field_config_struct) (truncation : Int)
    (min_value max_value : Float) (export_format : field_file_format_type)
    (init_transform input_transform output_transform output_field_name : Option String)
    (n : String) (hk : field_trans_table_has_key config.trans_table (some n) = false) :
    (input_transform = some n →
      ∃ config', field_config_update_field config truncation min_value max_value
          export_format init_transform input_transform output_transform output_field_name =
          .error (fatal.util_exit n config') ∧
        ∀ stage, stage_name stage config' = stage_name stage config ∧
          stage_handle stage config' = stage_handle stage config) ∧
    (resolves config.trans_table input_transform = true → init_transform = some n →
      ∃ config', field_config_update_field config truncation min_value max_value
          export_format init_transform input_transform output_transform output_field_name =
          .error (fatal.util_exit n config') ∧
        stage_name Stage.Input config' = input_transform ∧
        stage_handle Stage.Input config' =
          resolved_handle config.trans_table input_transform ∧
        stage_name Stage.Init config' = stage_name Stage.Init config ∧
        stage_handle Stage.Init config' = stage_handle Stage.Init config ∧
        stage_name Stage.Output config' = stage_name Stage.Output config ∧
        stage_handle Stage.Output config' = stage_handle Stage.Output config) ∧
    (resolves config.trans_table input_transform = true →
      resolves config.trans_table init_transform = true → output_transform = some n →
      ∃ config', field_config_update_field config truncation min_value max_value
          export_format init_transform input_transform output_transform output_field_name =
          .error (fatal.util_exit n config') ∧
        stage_name Stage.Input config' = input_transform ∧
        stage_handle Stage.Input config' =
          resolved_handle config.trans_table input_transform ∧
        stage_name Stage.Init config' = init_transform ∧
        stage_handle Stage.Init config' =
          resolved_handle config.trans_table init_transform ∧
        stage_name Stage.Output config' = stage_name Stage.Output config ∧
        stage_handle Stage.Output config' = stage_handle Stage.Output config) := by
  refine ⟨?_, ?_, ?_⟩
  · intro hin
    subst hin
    refine ⟨_, field_config_update_field_input_unknown config truncation min_value max_value
      export_format init_transform output_transform output_field_name n hk, ?_⟩
    intro stage
    cases stage <;> exact ⟨rfl, rfl⟩
  · intro hinput hin
    subst hin
    exact ⟨_, field_config_update_field_init_unknown config truncation min_value max_value
      export_format input_transform output_transform output_field_name n hinput hk,
      rfl, rfl, rfl, rfl, rfl, rfl⟩
  · intro hinput hinit hout
    subst hout
    exact ⟨_, field_config_update_field_output_unknown config truncation min_value max_value
      export_format init_transform input_transform output_field_name n hinput hinit hk,
      rfl, rfl, rfl, rfl, rfl, rfl⟩

/-- Witness of C15: on the sample configuration, the update with the registered
input name `LN`, the unknown init name `X` and the unknown output name `Y`
reports `X`, with Input bound to `LN` and Output untouched. -/
theorem update_resolution_order_witness :
    field_trans_table_has_key sample_config.trans_table (some "X") = false ∧
    ∃ config', field_config_update_field sample_config 0 0.0 0.0 ECL_KW_FILE_ALL_CELLS
        (some "X") (some "LN") (some "Y") none = .error (fatal.util_exit "X" config') ∧
      stage_name Stage.Input config' = some "LN" ∧
      stage_handle Stage.Input config' =
        resolved_handle sample_config.trans_table (some "LN") ∧
      stage_name Stage.Init config' = stage_name Stage.Init sample_config ∧
      stage_handle Stage.Init config' = stage_handle Stage.Init sample_config ∧
      stage_name Stage.Output config' = stage_name Stage.Output sample_config ∧
      stage_handle Stage.Output config' = stage_handle Stage.Output sample_config :=
  ⟨by decide, (update_resolution_order sample_config 0 0.0 0.0 ECL_KW_FILE_ALL_CELLS
    (some "X") (some "LN") (some "Y") none "X" (by decide)).2.1 (by decide) rfl⟩

/-! ## Reachable states -/

/-- C14: in a registry that gives a function for every name it has, every state
reached from a freshly constructed configuration by a sequence of `set_dims`,
`set_truncation`, `set_transform` and `update` calls (the state returned, or the
state a fatal call ends with) has, at each stage, a handle exactly when it has a
name, and a present name is a key of the registry whose lookup is the handle. -/
theorem reachable_bindings_consistent (table : field_trans_table_type)
    (hreg : registry_total table) (mem : field_config_struct)
    (ecl_kw_name path_to_grid : Option String) (keep_inactive_cells : Bool) (cs : List Call)
    (config' : field_config_struct)
    (h : calls (field_config_alloc_empty mem table ecl_kw_name path_to_grid
          keep_inactive_cells) cs = .ok config' ∨
      ∃ n, calls (field_config_alloc_empty mem table ecl_kw_name path_to_grid
          keep_inactive_cells) cs = .error (fatal.util_exit n config'))
    (stage : Stage) :
    ((stage_handle stage config').isSome = true ↔ (stage_name stage config').isSome = true) ∧
    ∀ n : String, stage_name stage config' = some n →
      field_trans_table_has_key table (some n) = true ∧
      stage_handle stage config' = field_trans_table_lookup table n := by
  have hc := outcome_consistent_calls table hreg cs _
    (consistent_alloc_empty mem table ecl_kw_name path_to_grid keep_inactive_cells)
  have hcons : consistent table config' := by
    rcases h with h | ⟨n, h⟩ <;> rw [h] at hc <;> exact hc
  have hb := hcons.2 stage
  unfold binding_consistent at hb
  rw [hcons.1] at hb
  exact hb

/-- Witness of C14: four calls on the sample configuration. -/
theorem reachable_bindings_consistent_witness :
    registry_total sample_table ∧
    (calls (field_config_alloc_empty sample_mem sample_table (some "PRESSURE") (some "G") true)
        sample_calls = .ok sample_reached ∨
      ∃ n, calls
        (field_config_alloc_empty sample_mem sample_table (some "PRESSURE") (some "G") true)
        sample_calls = .error (fatal.util_exit n sample_reached)) ∧
    ((stage_handle Stage.Output sample_reached).isSome = true ↔
      (stage_name Stage.Output sample_reached).isSome = true) ∧
    ∀ n : String, stage_name Stage.Output sample_reached = some n →
      field_trans_table_has_key sample_table (some n) = true ∧
      stage_handle Stage.Output sample_reached = field_trans_table_lookup sample_table n :=
  ⟨registry_total_sample_table, Or.inl rfl,
    reachable_bindings_consistent sample_table registry_total_sample_table sample_mem
      (some "PRESSURE") (some "G") true sample_calls sample_reached (Or.inl rfl) Stage.Output⟩

end FieldConfig
